import Mathlib

/-!
Verification of the comparison/analysis engine of the repository's
compatibility-verification scripts (`compare_responses.py` and
`tests/analysis/comprehensive_comparison.py`).

The embedding is shallow: Python JSON values become the inductive `JSON`
(numbers are modelled as integers; the sample data and all analyzed fields
are integral), Python dicts become association lists with unique keys, and
the script functions become Lean functions over those values.  File I/O,
argument parsing and console printing are out of scope; the core functions
receive already-loaded line lists and JSON values, exactly as the spec
delimits the core.  The external library function `json.loads` is modelled
as an explicit parameter `loads : String → Option JSON` (`none` models a
raised decode exception); concrete examples use a finite restriction of it.
-/

set_option maxRecDepth 8000

namespace CompatVerify

/-- A JSON value as produced by Python's `json.loads`: `null`/`None`,
booleans, numbers (modelled as integers), strings, lists, and dicts
(association lists with the keys unique and in insertion order). -/
inductive JSON where
  | null : JSON
  | bool : Bool → JSON
  | int : Int → JSON
  | str : String → JSON
  | arr : List JSON → JSON
  | obj : List (String × JSON) → JSON

mutual

/-- Structural (Python `==`) equality test on JSON values. -/
def JSON.beq : JSON → JSON → Bool
  | .null, .null => true
  | .bool a, .bool b => a == b
  | .int a, .int b => a == b
  | .str a, .str b => a == b
  | .arr a, .arr b => JSON.beqList a b
  | .obj a, .obj b => JSON.beqObj a b
  | _, _ => false

/-- Elementwise equality test on JSON lists. -/
def JSON.beqList : List JSON → List JSON → Bool
  | [], [] => true
  | x :: xs, y :: ys => JSON.beq x y && JSON.beqList xs ys
  | _, _ => false

/-- Entrywise equality test on JSON dict entry lists. -/
def JSON.beqObj : List (String × JSON) → List (String × JSON) → Bool
  | [], [] => true
  | (k, v) :: xs, (k2, v2) :: ys => k == k2 && JSON.beq v v2 && JSON.beqObj xs ys
  | _, _ => false

end

mutual

theorem JSON.eq_of_beq : ∀ a b : JSON, JSON.beq a b = true → a = b
  | .null, .null, _ => rfl
  | .bool a, .bool b, h => by
      simp only [JSON.beq, beq_iff_eq] at h; rw [h]
  | .int a, .int b, h => by
      simp only [JSON.beq, beq_iff_eq] at h; rw [h]
  | .str a, .str b, h => by
      simp only [JSON.beq, beq_iff_eq] at h; rw [h]
  | .arr a, .arr b, h => by
      rw [JSON.eqList_of_beq a b (by simpa only [JSON.beq] using h)]
  | .obj a, .obj b, h => by
      rw [JSON.eqObj_of_beq a b (by simpa only [JSON.beq] using h)]
  | .null, .bool _, h | .null, .int _, h | .null, .str _, h
  | .null, .arr _, h | .null, .obj _, h
  | .bool _, .null, h | .bool _, .int _, h | .bool _, .str _, h
  | .bool _, .arr _, h | .bool _, .obj _, h
  | .int _, .null, h | .int _, .bool _, h | .int _, .str _, h
  | .int _, .arr _, h | .int _, .obj _, h
  | .str _, .null, h | .str _, .bool _, h | .str _, .int _, h
  | .str _, .arr _, h | .str _, .obj _, h
  | .arr _, .null, h | .arr _, .bool _, h | .arr _, .int _, h
  | .arr _, .str _, h | .arr _, .obj _, h
  | .obj _, .null, h | .obj _, .bool _, h | .obj _, .int _, h
  | .obj _, .str _, h | .obj _, .arr _, h => by
      simp only [JSON.beq] at h
      exact Bool.noConfusion h

theorem JSON.eqList_of_beq : ∀ a b : List JSON, JSON.beqList a b = true → a = b
  | [], [], _ => rfl
  | x :: xs, y :: ys, h => by
      simp only [JSON.beqList, Bool.and_eq_true] at h
      rw [JSON.eq_of_beq x y h.1, JSON.eqList_of_beq xs ys h.2]
  | [], _ :: _, h | _ :: _, [], h => by
      simp only [JSON.beqList] at h
      exact Bool.noConfusion h

theorem JSON.eqObj_of_beq :
    ∀ a b : List (String × JSON), JSON.beqObj a b = true → a = b
  | [], [], _ => rfl
  | (k, v) :: xs, (k2, v2) :: ys, h => by
      simp only [JSON.beqObj, Bool.and_eq_true, beq_iff_eq] at h
      rw [h.1.1, JSON.eq_of_beq v v2 h.1.2, JSON.eqObj_of_beq xs ys h.2]
  | [], _ :: _, h | _ :: _, [], h => by
      simp only [JSON.beqObj] at h
      exact Bool.noConfusion h

end

mutual

theorem JSON.beq_refl : ∀ a : JSON, JSON.beq a a = true
  | .null => rfl
  | .bool a => by simp only [JSON.beq, beq_self_eq_true]
  | .int a => by simp only [JSON.beq, beq_self_eq_true]
  | .str a => by simp only [JSON.beq, beq_self_eq_true]
  | .arr a => by simpa only [JSON.beq] using JSON.beqList_refl a
  | .obj a => by simpa only [JSON.beq] using JSON.beqObj_refl a

theorem JSON.beqList_refl : ∀ a : List JSON, JSON.beqList a a = true
  | [] => rfl
  | x :: xs => by
      simp only [JSON.beqList, Bool.and_eq_true]
      exact ⟨JSON.beq_refl x, JSON.beqList_refl xs⟩

theorem JSON.beqObj_refl : ∀ a : List (String × JSON), JSON.beqObj a a = true
  | [] => rfl
  | (k, v) :: xs => by
      simp only [JSON.beqObj, Bool.and_eq_true, beq_self_eq_true]
      exact ⟨⟨trivial, JSON.beq_refl v⟩, JSON.beqObj_refl xs⟩

end

instance : DecidableEq JSON := fun a b =>
  if h : JSON.beq a b = true then .isTrue (JSON.eq_of_beq a b h)
  else .isFalse (fun he => h (by rw [he]; exact JSON.beq_refl b))

/-- Python `s.startswith(pre)`. -/
def pyStartsWith (s pre : String) : Bool := decide (pre.data <+: s.data)

/-- Python `sub in s` (substring containment). -/
def pyContains (s sub : String) : Bool := decide (sub.data <:+: s.data)

/-- Python `s[6:]`: drop the first six characters. -/
def pySlice6 (s : String) : String := String.mk (s.data.drop 6)

/-- `comprehensive_comparison.py` line 17: a line is kept iff it starts with
`'data: '` and does not contain `'[DONE]'` anywhere (Python `in` is substring
containment over the whole line). -/
def isDataLine (line : String) : Bool :=
  pyStartsWith line "data: " && !(pyContains line "[DONE]")

/-- The filtered `data_lines` list of `analyze_streaming_consistency`. -/
def dataLines (lines : List String) : List String := lines.filter isDataLine

/-- Python `chunk.get(k)`: `None` when the key is absent; an explicit JSON
null and an absent key are indistinguishable, both give Python `None`. -/
def pyGet (o : List (String × JSON)) (k : String) : JSON :=
  (o.lookup k).getD JSON.null

/-- The chunks of the loop at lines 24-32 of `comprehensive_comparison.py`
that contribute to the per-field value lists: a data line contributes iff
`json.loads` succeeds on `line[6:]` AND the result is a dict (for a non-dict
result the first `chunk.get` raises `AttributeError`, the bare `except`
swallows it, and nothing is appended to any list). -/
def pyChunks (loads : String → Option JSON) (lines : List String) :
    List (List (String × JSON)) :=
  (dataLines lines).filterMap (fun line =>
    match loads (pySlice6 line) with
    | some (JSON.obj o) => some o
    | _ => none)

/-- The dictionary returned by `analyze_streaming_consistency`
(lines 34-48 of `comprehensive_comparison.py`), field for field. -/
structure ConsistencyReport where
  total_chunks : Nat
  unique_ids : Nat
  unique_timestamps : Nat
  unique_fingerprints : Nat
  unique_models : Nat
  consistent_id : Bool
  consistent_timestamp : Bool
  consistent_fingerprint : Bool
  consistent_model : Bool
  first_id : JSON
  first_timestamp : JSON
  first_fingerprint : JSON
  first_model : JSON
deriving DecidableEq

/-- Lines 19-48 of `analyze_streaming_consistency` given the decoded dict
chunks and the count of data lines: `ids = [chunk.get('id') for chunk]`,
`unique_* = len(set(...))` (a set's size is the number of distinct
elements), `consistent_* = (len(set(...)) == 1)`, `first_* = xs[0] if xs
else None`, `total_chunks = len(data_lines)`. -/
def buildReport (total : Nat) (chunks : List (List (String × JSON))) :
    ConsistencyReport :=
  let ids := chunks.map (fun o => pyGet o "id")
  let timestamps := chunks.map (fun o => pyGet o "created")
  let fingerprints := chunks.map (fun o => pyGet o "system_fingerprint")
  let models := chunks.map (fun o => pyGet o "model")
  { total_chunks := total
    unique_ids := ids.dedup.length
    unique_timestamps := timestamps.dedup.length
    unique_fingerprints := fingerprints.dedup.length
    unique_models := models.dedup.length
    consistent_id := decide (ids.dedup.length = 1)
    consistent_timestamp := decide (timestamps.dedup.length = 1)
    consistent_fingerprint := decide (fingerprints.dedup.length = 1)
    consistent_model := decide (models.dedup.length = 1)
    first_id := ids.headD JSON.null
    first_timestamp := timestamps.headD JSON.null
    first_fingerprint := fingerprints.headD JSON.null
    first_model := models.headD JSON.null }

/-- `analyze_streaming_consistency` (lines 7-48 of
`comprehensive_comparison.py`) on an already-read list of lines, with the
external `json.loads` passed as `loads`. -/
def analyze_streaming_consistency (loads : String → Option JSON)
    (lines : List String) : ConsistencyReport :=
  buildReport (dataLines lines).length (pyChunks loads lines)

/-- Finite restriction of the external `json.loads` to the payloads used in
the concrete examples of this file: `json.loads` parses the two object
payloads and raises (`none`) on everything else that the examples feed it,
such as the non-JSON text `x`. -/
def loadsEx (s : String) : Option JSON :=
  if s = "\x7b\"id\":\"a\"\x7d" then some (JSON.obj [("id", JSON.str "a")])
  else if s = "\x7b\x7d" then some (JSON.obj [])
  else none

/-- A descriptor stored by `analyze_json_structure` at one path: the Python
type name string, the `"value"` entry when that dict key is present
(`some JSON.null` models a stored Python `None`, `none` models the key being
absent as in list descriptors), and the `"length"` entry likewise. -/
structure Info where
  type : String
  value : Option JSON
  length : Option Nat
deriving DecidableEq

/-- A structural fingerprint: the Python dict mapping path strings to
descriptors, as an association list with unique keys in insertion order. -/
abbrev Struct : Type := List (String × Info)

/-- Python dict assignment `m[k] = v`: overwrite in place when the key
exists, append otherwise. -/
def insertKey (m : Struct) (k : String) (v : Info) : Struct :=
  if m.any (fun p => decide (p.1 = k)) then
    m.map (fun p => if p.1 = k then (k, v) else p)
  else m ++ [(k, v)]

/-- Python `m.update(child)`: assign every entry of `child` into `m`. -/
def updateWith (m child : Struct) : Struct :=
  child.foldl (fun acc p => insertKey acc p.1 p.2) m

/-- Python `m.get(k)` on a fingerprint dict (first, hence unique, match). -/
def findPath (m : Struct) (k : String) : Option Info := m.lookup k

/-- Python `type(v).__name__` for the values `json.loads` can produce. -/
def typeName : JSON → String
  | .null => "NoneType"
  | .bool _ => "bool"
  | .int _ => "int"
  | .str _ => "str"
  | .arr _ => "list"
  | .obj _ => "dict"

/-- Python `isinstance(v, (dict, list))`. -/
def isContainer : JSON → Bool
  | .arr _ => true
  | .obj _ => true
  | _ => false

/-- A scalar JSON value: null, boolean, number or string. -/
def isScalar (v : JSON) : Bool := !(isContainer v)

/-- The `"value"` entry stored for a dict member:
`value if not isinstance(value, (dict, list)) else None`. -/
def descVal (v : JSON) : JSON := if isContainer v then JSON.null else v

mutual

/-- `analyze_json_structure(data, path)`, identical in
`compare_responses.py` lines 5-27 and `comprehensive_comparison.py` lines
50-71: dicts record a descriptor per key and recurse into container values;
lists recurse into element 0 only (under suffix `[0]`) and then record at
their own path `{"type": "list", "length": len(data)}`; any other (scalar)
input yields the empty dict. -/
def analyze_json_structure : JSON → String → Struct
  | JSON.obj l, path => analyzeObjEntries l path []
  | JSON.arr l, path =>
      insertKey
        (match l with
         | [] => ([] : Struct)
         | x :: _ => analyze_json_structure x (path ++ "[0]"))
        path ⟨"list", none, some l.length⟩
  | _, _ => []

/-- The `for key, value in data.items()` loop of `analyze_json_structure`,
threading the structure dict built so far. -/
def analyzeObjEntries : List (String × JSON) → String → Struct → Struct
  | [], _, acc => acc
  | (key, value) :: rest, path, acc =>
      let current := if path = "" then key else path ++ "." ++ key
      let acc1 := insertKey acc current ⟨typeName value, some (descVal value), none⟩
      let acc2 :=
        if isContainer value then
          updateWith acc1 (analyze_json_structure value current)
        else acc1
      analyzeObjEntries rest path acc2

end

/-- The path list of a fingerprint (`struct.keys()`). -/
def structKeys (s : Struct) : List String := s.map Prod.fst

/-- `sorted(set(struct1.keys()) | set(struct2.keys()))`: the union of the
two path sets, iterated in ascending lexicographic order. -/
def allKeys (s1 s2 : Struct) : List String :=
  ((structKeys s1).toFinset ∪ (structKeys s2).toFinset).sort (fun a b => a ≤ b)

/-- `struct.get(key, {"type": "MISSING"})["type"]`: the kind at a path,
defaulting to the `MISSING` marker when the path is absent. -/
def typeAt (s : Struct) (k : String) : String :=
  match findPath s k with
  | some i => i.type
  | none => "MISSING"

/-- One output row of the structural comparison loop
(`comprehensive_comparison.py` lines 102-110). -/
structure Row where
  path : String
  ref : String
  cand : String
  matched : Bool
deriving DecidableEq

/-- The comparison table: one row per path in the sorted union, with the
kind on each side (defaulting to `MISSING`) and whether the kinds match. -/
def compareRows (s1 s2 : Struct) : List Row :=
  (allKeys s1 s2).map
    (fun k => ⟨k, typeAt s1 k, typeAt s2 k, decide (typeAt s1 k = typeAt s2 k)⟩)

/-- `matches`: the number of rows whose kinds agree. -/
def matchedCount (s1 s2 : Struct) : Nat :=
  (compareRows s1 s2).countP (fun r => r.matched)

/-- `total = len(all_keys)`. -/
def totalCount (s1 s2 : Struct) : Nat := (compareRows s1 s2).length

/-- The hardcoded important-path list of both scripts. -/
def important_fields : List String :=
  ["object", "model", "service_tier", "choices[0].index", "choices[0].finish_reason"]

/-- `struct.get(field, {}).get("value", default)`: the stored `"value"`
entry, or `default` when the path is absent or its descriptor carries no
`"value"` key (as for list descriptors). -/
def getValueOr (s : Struct) (field : String) (default : JSON) : JSON :=
  match findPath s field with
  | none => default
  | some i =>
      match i.value with
      | none => default
      | some v => v

/-- The per-field equality of the important-path value comparison in
`compare_structures` (`compare_responses.py` lines 58-62), whose absent-side
default is the string `"MISSING"`. -/
def valueCheckEq (s1 s2 : Struct) (field : String) : Bool :=
  decide (getValueOr s1 field (JSON.str "MISSING")
            = getValueOr s2 field (JSON.str "MISSING"))

/-- The `results` dict of `main` (`comprehensive_comparison.py` lines
188-193): four check slots, `none` meaning the slot was never assigned
(skip). -/
structure Results where
  json_match : Option Bool
  streaming_consistent : Option Bool
  streaming_struct_match : Option Bool
  model_names_preserved : Option Bool
deriving DecidableEq

/-- Python truthiness of a JSON value (`if result['first_model']:`). -/
def pyTruthy : JSON → Bool
  | .null => false
  | .bool b => b
  | .int n => decide (n ≠ 0)
  | .str s => decide (s ≠ "")
  | .arr l => decide (l ≠ [])
  | .obj l => decide (l ≠ [])

/-- The model-name allow-list test of `main` lines 255-257. -/
def startsLegit (s : String) : Bool :=
  pyStartsWith s "test-" || pyStartsWith s "gpt-" || pyStartsWith s "gemini-"

/-- One iteration of the model-name check (`main` lines 252-258): skipped
entirely when `first_model` is falsy; for a truthy string the allow-list
test runs; a truthy non-string would raise `AttributeError` at
`.startswith` and abort `main` (modelled as `none`). -/
def checkModel (m : JSON) : Option Bool :=
  if pyTruthy m then
    match m with
    | .str s => some (startsLegit s)
    | _ => none
  else some true

/-- The `model_names_preserved` flag after the loop of `main` lines
221-258, over the successfully analyzed streaming reports (`none` models
the uncaught `AttributeError` abort). -/
def modelNamesPreservedFold (reports : List ConsistencyReport) : Option Bool :=
  reports.foldlM (fun acc r => (checkModel r.first_model).map (fun b => acc && b)) true

/-- The `all_streaming_consistent` flag (`main` lines 260-262): id,
timestamp and fingerprint consistency of every report; model consistency is
not part of it. -/
def allStreamingConsistent (reports : List ConsistencyReport) : Bool :=
  reports.all (fun r => r.consistent_id && r.consistent_timestamp && r.consistent_fingerprint)

/-- The `results` dict as `main` has filled it when reaching the final
assessment (lines 187-314): the non-streaming comparison and the
cross-vendor structure check keep their `None` skip marker when their input
files are missing (they are passed here as `Option Bool`), while the
streaming-consistency and model-name slots are assigned unconditionally
after the loop, from flags initialized to `True`. -/
def buildResults (jm : Option Bool) (reports : List ConsistencyReport)
    (sm : Option Bool) : Option Results :=
  match modelNamesPreservedFold reports with
  | none => none
  | some mnp =>
      some { json_match := jm
             streaming_consistent := some (allStreamingConsistent reports)
             streaming_struct_match := sm
             model_names_preserved := some mnp }

/-- `results.values()` in slot order. -/
def resultsList (r : Results) : List (Option Bool) :=
  [r.json_match, r.streaming_consistent, r.streaming_struct_match, r.model_names_preserved]

/-- `passed_tests = sum(1 for r in results.values() if r is True)`. -/
def passedTests (r : Results) : Nat :=
  (resultsList r).countP (fun x => decide (x = some true))

/-- `total_tests = sum(1 for r in results.values() if r is not None)`. -/
def totalTests (r : Results) : Nat :=
  (resultsList r).countP (fun x => decide (x ≠ none))

/-- The overall score of `main` lines 339-341 as the exact pair
(passed, total); the `else` branch (lines 357-360) reports "no tests could
be performed" instead of dividing, modelled as `none`. -/
def overallScore (r : Results) : Option (Nat × Nat) :=
  if totalTests r > 0 then some (passedTests r, totalTests r) else none

/-- A first-observed model value that is a string or Python `None`; the
model-name check of `main` only makes sense (does not raise) there. -/
def strOrNull : JSON → Bool
  | JSON.null => true
  | JSON.str _ => true
  | _ => false

/-- What one stream contributes to the model-name verdict: vacuously fine
when the first model value is `None` or the empty string, otherwise the
allow-list test. -/
def modelOk : JSON → Bool
  | JSON.str s => decide (s = "") || startsLegit s
  | _ => true

/-- The heterogeneous-sequence example of the spec's
representative-sampling contract. -/
def exC8 : JSON :=
  JSON.obj [("choices", JSON.arr
    [JSON.obj [("index", JSON.int 0)], JSON.obj [("foo", JSON.str "bar")]])]

/-! Helper lemmas about the embedded definitions. -/

theorem data_append (a b : String) : (a ++ b).data = a.data ++ b.data := by
  cases a; cases b; rfl

theorem append_bracket_ne (p : String) : p ++ "[0]" ≠ p := by
  intro h
  have hdata := congrArg String.data h
  rw [data_append] at hdata
  have h0 : ("[0]" : String).data = [] := by
    have := congrArg (List.drop p.data.length) hdata
    rw [List.drop_left, List.drop_length] at this
    exact this
  exact absurd h0 (by decide)

/-- C1 counterexample: analyzing an empty frame sequence gives
`unique_ids = 0` (which is `<= 1`) yet `consistent_id = false`, because the
code tests `len(set(ids)) == 1`, not `<= 1`; so "consistent = true iff
distinct_count <= 1" and "empty yields consistent = true" are both false on
the code. -/
theorem claim_C1_counterexample :
    (analyze_streaming_consistency loadsEx []).unique_ids = 0
    ∧ (analyze_streaming_consistency loadsEx []).consistent_id = false
    ∧ (analyze_streaming_consistency loadsEx []).total_chunks = 0 := by
  decide

/-- C1 (amended): per identity field, `consistent` is true iff
`distinct_count` is exactly 1, and an empty frame sequence yields a report
with every `distinct_count = 0`, every `consistent = false`, every first
value `None`, and `total_frames = 0`. -/
theorem claim_C1 (loads : String → Option JSON) (lines : List String) :
    ((analyze_streaming_consistency loads lines).consistent_id
        = decide ((analyze_streaming_consistency loads lines).unique_ids = 1))
    ∧ ((analyze_streaming_consistency loads lines).consistent_timestamp
        = decide ((analyze_streaming_consistency loads lines).unique_timestamps = 1))
    ∧ ((analyze_streaming_consistency loads lines).consistent_fingerprint
        = decide ((analyze_streaming_consistency loads lines).unique_fingerprints = 1))
    ∧ ((analyze_streaming_consistency loads lines).consistent_model
        = decide ((analyze_streaming_consistency loads lines).unique_models = 1))
    ∧ analyze_streaming_consistency loads []
        = ⟨0, 0, 0, 0, 0, false, false, false, false,
           JSON.null, JSON.null, JSON.null, JSON.null⟩ :=
  ⟨rfl, rfl, rfl, rfl, rfl⟩

/-- C2 counterexample: two decoded frames, one carrying `id = "a"` and one
whose payload lacks the `id` key, give `unique_ids = 2` (the absent key
contributes Python `None` as an extra distinct value); and with the
key-less frame first, the reported first id is `None`, not the first
present value. -/
theorem claim_C2_counterexample :
    loadsEx "\x7b\x7d" = some (JSON.obj [])
    ∧ (analyze_streaming_consistency loadsEx
        ["data: \x7b\"id\":\"a\"\x7d", "data: \x7b\x7d"]).unique_ids = 2
    ∧ (analyze_streaming_consistency loadsEx
        ["data: \x7b\x7d", "data: \x7b\"id\":\"a\"\x7d"]).first_id = JSON.null := by
  decide

/-- C2 (amended): a decoded frame whose payload lacks a tracked key
contributes Python `None` to that field's value list; a frame with value
`v ≠ None` next to a key-less frame yields `distinct_count = 2` (absence is
counted as a distinct `None`), and the first value is the first frame's
`get` result, `None` when the first frame lacks the key. -/
theorem claim_C2 (o1 o2 : List (String × JSON)) (v : JSON) (n : Nat)
    (h1 : o1.lookup "id" = some v) (h2 : o2.lookup "id" = none)
    (hv : v ≠ JSON.null) :
    (buildReport n [o1, o2]).unique_ids = 2
    ∧ (buildReport n [o2, o1]).first_id = JSON.null := by
  constructor
  · have hu : (buildReport n [o1, o2]).unique_ids
        = (([o1, o2].map (fun o => pyGet o "id")).dedup).length := rfl
    rw [hu]
    have hids : [o1, o2].map (fun o => pyGet o "id") = [v, JSON.null] := by
      simp [pyGet, h1, h2]
    rw [hids]
    rw [List.dedup_cons_of_not_mem (by simpa using hv)]
    simp
  · have hf : (buildReport n [o2, o1]).first_id
        = ([o2, o1].map (fun o => pyGet o "id")).headD JSON.null := rfl
    rw [hf]
    simp [pyGet, h2]

/-- C2 witness: the amended statement at the concrete frames
`[{"id": "a"}, {}]`. -/
theorem claim_C2_witness :
    (buildReport 2 [[("id", JSON.str "a")], []]).unique_ids = 2
    ∧ (buildReport 2 [[], [("id", JSON.str "a")]]).first_id = JSON.null :=
  claim_C2 [("id", JSON.str "a")] [] (JSON.str "a") 2 rfl rfl (by decide)

/-- C4 counterexample: a data-bearing line whose JSON payload merely
contains the substring `[DONE]` is excluded by the filter (Python tests
`'[DONE]' not in line` over the whole line), although its remainder after
the prefix is not the literal `[DONE]`. -/
theorem claim_C4_counterexample :
    isDataLine "data: \x7b\"note\":\"[DONE]\"\x7d" = false
    ∧ pyStartsWith "data: \x7b\"note\":\"[DONE]\"\x7d" "data: " = true
    ∧ pySlice6 "data: \x7b\"note\":\"[DONE]\"\x7d" ≠ "[DONE]" := by
  decide

/-- C4 (amended): a line starting with `'data: '` is excluded from the
decoded frame sequence iff the substring `[DONE]` occurs anywhere in the
line; in particular a line whose remainder after the prefix equals the
literal `[DONE]` is excluded, but so is any data-bearing line whose payload
contains `[DONE]` elsewhere. -/
theorem claim_C4 :
    (∀ line : String, pyStartsWith line "data: " = true →
      pySlice6 line = "[DONE]" → isDataLine line = false)
    ∧ ∀ line : String,
        isDataLine line
          = (pyStartsWith line "data: " && !(pyContains line "[DONE]")) := by
  refine ⟨fun line h1 h2 => ?_, fun line => rfl⟩
  have hp : ("data: " : String).data <+: line.data := of_decide_eq_true h1
  obtain ⟨t, ht⟩ := hp
  have hd : line.data.drop 6 = ("[DONE]" : String).data := by
    have h3 := congrArg String.data h2
    simpa [pySlice6] using h3
  have hlen : (("data: " : String).data).length = 6 := by decide
  have ht6 : t = ("[DONE]" : String).data := by
    rw [← ht, ← hlen, List.drop_left] at hd
    exact hd
  have hline : line = "data: [DONE]" := by
    apply String.ext
    rw [← ht, ht6]
    decide
  rw [hline]
  decide

/-- C4 witness: the pure terminal-marker line is excluded. -/
theorem claim_C4_witness : isDataLine "data: [DONE]" = false :=
  claim_C4.1 "data: [DONE]" (by decide) (by decide)

/-- C5 counterexample: a single data-bearing line whose payload `x` fails
to decode still yields `total_chunks = 1` although zero frames decoded, so
`total_frames` counts data lines, not successful decodes. -/
theorem claim_C5_counterexample :
    (analyze_streaming_consistency loadsEx ["data: x"]).total_chunks = 1
    ∧ pyChunks loadsEx ["data: x"] = []
    ∧ loadsEx (pySlice6 "data: x") = none := by
  decide

/-- C5 (amended): `total_chunks` equals the number of data-bearing lines
(those kept by the `data: `/`[DONE]` filter) regardless of whether they
decode: it is independent of the decoder entirely. -/
theorem claim_C5 (loads loads2 : String → Option JSON) (lines : List String) :
    (analyze_streaming_consistency loads lines).total_chunks
        = (dataLines lines).length
    ∧ (analyze_streaming_consistency loads lines).total_chunks
        = (analyze_streaming_consistency loads2 lines).total_chunks :=
  ⟨rfl, rfl⟩

/-- C3 counterexample: aggregating zero reports of every kind does not
yield all-skip: the streaming-consistency and model-name checks come out
`pass` (their accumulator flags start at `True` and are stored
unconditionally), and the score is 2/2, not a no-data report. -/
theorem claim_C3_counterexample :
    buildResults none [] none = some ⟨none, some true, none, some true⟩
    ∧ overallScore ⟨none, some true, none, some true⟩ = some (2, 2)
    ∧ passedTests ⟨none, some true, none, some true⟩ = 2 := by
  decide

/-- C3 (amended): the non-streaming and cross-vendor-structure checks with
no contributing report stay skip (`None`) and are excluded from the score
denominator (turning a skip into a result raises `total_tests` by one and
never lowers `passed_tests`), and the explicit no-data branch fires exactly
when `total_tests = 0`; but the streaming-consistency and model-name checks
are assigned unconditionally and default to pass on zero reports, so
aggregating zero reports of every kind yields those two checks `pass` and
score 2/2 rather than an all-skip verdict. -/
theorem claim_C3 :
    (∀ jm sm : Option Bool,
        buildResults jm [] sm = some ⟨jm, some true, sm, some true⟩)
    ∧ (∀ (a : Bool) (b c d : Option Bool),
        totalTests ⟨some a, b, c, d⟩ = totalTests ⟨none, b, c, d⟩ + 1
        ∧ passedTests ⟨none, b, c, d⟩ ≤ passedTests ⟨some a, b, c, d⟩)
    ∧ (∀ r : Results, totalTests r = 0 → overallScore r = none) := by
  refine ⟨fun jm sm => rfl, fun a b c d => ⟨?_, ?_⟩, fun r h => ?_⟩
  · simp [totalTests, resultsList, List.countP_cons]
  · simp [passedTests, resultsList, List.countP_cons]
  · simp [overallScore, h]

/-- C3 witness: the amended statement at concrete inputs: zero reports give
the all-defaults verdict, and a verdict with zero counted tests scores
no-data. -/
theorem claim_C3_witness :
    buildResults none [] none = some ⟨none, some true, none, some true⟩
    ∧ overallScore ⟨none, none, none, none⟩ = none :=
  ⟨claim_C3.1 none none, claim_C3.2.2 ⟨none, none, none, none⟩ (by decide)⟩

theorem checkModel_eq (m : JSON) (h : strOrNull m = true) :
    checkModel m = some (modelOk m) := by
  cases m with
  | null => rfl
  | str s =>
      by_cases hs : s = ""
      · subst hs; rfl
      · simp [checkModel, pyTruthy, modelOk, hs]
  | bool b => simp [strOrNull] at h
  | int n => simp [strOrNull] at h
  | arr l => simp [strOrNull] at h
  | obj l => simp [strOrNull] at h

theorem foldModel (reports : List ConsistencyReport) (acc : Bool)
    (h : ∀ r ∈ reports, strOrNull r.first_model = true) :
    reports.foldlM
        (fun acc r => (checkModel r.first_model).map (fun b => acc && b)) acc
      = some (acc && reports.all (fun r => modelOk r.first_model)) := by
  induction reports generalizing acc with
  | nil => simp
  | cons r t ih =>
      have hr := checkModel_eq r.first_model (h r (by simp))
      have ht : ∀ x ∈ t, strOrNull x.first_model = true :=
        fun x hx => h x (List.mem_cons_of_mem _ hx)
      have step :
          List.foldlM
              (fun acc r => (checkModel r.first_model).map (fun b => acc && b))
              acc (r :: t)
            = List.foldlM
                (fun acc r => (checkModel r.first_model).map (fun b => acc && b))
                (acc && modelOk r.first_model) t := by
        rw [List.foldlM_cons, hr]
        rfl
      rw [step, ih (acc && modelOk r.first_model) ht]
      simp [Bool.and_assoc]

/-- C10: restricted to streams whose first observed model value is a string
or absent (`None`) — the only inputs on which the Python check does not
raise — the check passes vacuously for an absent or empty model name, and
the overall `model_names_preserved` verdict is true iff every analyzed
stream's nonempty first model name starts with `test-`, `gpt-` or
`gemini-`. -/
theorem claim_C10 (reports : List ConsistencyReport)
    (h : ∀ r ∈ reports, strOrNull r.first_model = true) :
    modelNamesPreservedFold reports
        = some (reports.all (fun r => modelOk r.first_model))
    ∧ checkModel JSON.null = some true
    ∧ checkModel (JSON.str "") = some true := by
  refine ⟨?_, rfl, rfl⟩
  have hfold := foldModel reports true h
  simpa [modelNamesPreservedFold] using hfold

/-- C10 witness: one stream whose first model name is `gpt-4o` passes the
model-name verdict. -/
theorem claim_C10_witness :
    modelNamesPreservedFold [buildReport 1 [[("model", JSON.str "gpt-4o")]]]
      = some true := by
  have h := claim_C10 [buildReport 1 [[("model", JSON.str "gpt-4o")]]] (by decide)
  rw [h.1]
  decide

theorem lookup_map_overwrite (m : Struct) (k : String) (i : Info)
    (h : m.any (fun p => decide (p.1 = k)) = true) :
    List.lookup k (m.map (fun p => if p.1 = k then (k, i) else p)) = some i := by
  induction m with
  | nil => simp at h
  | cons p t ih =>
      obtain ⟨a, j⟩ := p
      by_cases hak : a = k
      · subst hak
        rw [List.map_cons, if_pos rfl]
        simp [List.lookup]
      · have hka : (k == a) = false := by
          simp only [beq_eq_false_iff_ne, ne_eq]
          exact fun he => hak he.symm
        have ht : t.any (fun p => decide (p.1 = k)) = true := by
          simpa [hak] using h
        rw [List.map_cons, if_neg hak]
        simpa [List.lookup, hka] using ih ht

theorem lookup_append_right (m : Struct) (k : String) (i : Info)
    (h : m.any (fun p => decide (p.1 = k)) = false) :
    List.lookup k (m ++ [(k, i)]) = some i := by
  induction m with
  | nil => simp [List.lookup]
  | cons p t ih =>
      obtain ⟨a, j⟩ := p
      have hak : ¬(a = k) := by
        intro he
        simp [he] at h
      have hka : (k == a) = false := by
        simp only [beq_eq_false_iff_ne, ne_eq]
        exact fun he => hak he.symm
      have ht : t.any (fun p => decide (p.1 = k)) = false := by
        simpa [hak] using h
      simpa [List.lookup, hka] using ih ht

theorem findPath_insertKey_self (m : Struct) (k : String) (i : Info) :
    findPath (insertKey m k i) k = some i := by
  unfold findPath insertKey
  by_cases h : m.any (fun p => decide (p.1 = k)) = true
  · rw [if_pos h]
    exact lookup_map_overwrite m k i h
  · have hf : m.any (fun p => decide (p.1 = k)) = false := by
      cases hb : m.any (fun p => decide (p.1 = k)) <;> simp_all
    rw [if_neg (by simp [hf])]
    exact lookup_append_right m k i hf

/-- C6 counterexample: a scalar at the root records nothing at all (the
fingerprint is empty, no kind/literal descriptor), and a sequence whose
first element is a scalar records no descriptor at suffix `[0]`. -/
theorem claim_C6_counterexample :
    analyze_json_structure (JSON.str "hello") "" = []
    ∧ findPath (analyze_json_structure (JSON.arr [JSON.int 0]) "") "[0]" = none := by
  decide

/-- C6 (amended): scalar values are recorded only where they occur as
mapping values: a scalar at the root yields an empty fingerprint, a
sequence whose first element is a scalar records nothing at suffix `[0]`
(only the sequence's own descriptor survives), and a scalar mapping value
does get a descriptor with its kind and literal, with no recursion. -/
theorem claim_C6 (v : JSON) (h : isScalar v = true) :
    (∀ path : String, analyze_json_structure v path = [])
    ∧ (∀ (rest : List JSON) (path : String),
        findPath (analyze_json_structure (JSON.arr (v :: rest)) path)
          (path ++ "[0]") = none)
    ∧ (∀ k : String,
        findPath (analyze_json_structure (JSON.obj [(k, v)]) "") k
          = some ⟨typeName v, some v, none⟩) := by
  have hc : isContainer v = false := by
    cases hb : isContainer v
    · rfl
    · rw [isScalar, hb] at h
      exact absurd h (by decide)
  have hscalar : ∀ path : String, analyze_json_structure v path = [] := by
    intro path
    cases v <;> first
      | rfl
      | (exact absurd hc (by simp [isContainer]))
  refine ⟨hscalar, fun rest path => ?_, fun k => ?_⟩
  · have harr : analyze_json_structure (JSON.arr (v :: rest)) path
        = insertKey (analyze_json_structure v (path ++ "[0]")) path
            ⟨"list", none, some (v :: rest).length⟩ := by
      simp [analyze_json_structure]
    rw [harr, hscalar]
    have hb : ((path ++ "[0]") == path) = false := by
      rw [beq_eq_false_iff_ne]
      exact append_bracket_ne path
    simp [insertKey, findPath, List.lookup, hb]
  · have hobj : analyze_json_structure (JSON.obj [(k, v)]) ""
        = insertKey [] k ⟨typeName v, some (descVal v), none⟩ := by
      simp [analyze_json_structure, analyzeObjEntries, hc]
    rw [hobj]
    have hd : descVal v = v := by simp [descVal, hc]
    rw [hd]
    exact findPath_insertKey_self [] k _

/-- C6 witness: the amended statement at the scalar `7`. -/
theorem claim_C6_witness :
    analyze_json_structure (JSON.int 7) "p" = []
    ∧ findPath (analyze_json_structure (JSON.arr [JSON.int 7]) "") "[0]" = none
    ∧ findPath (analyze_json_structure (JSON.obj [("k", JSON.int 7)]) "") "k"
        = some ⟨"int", some (JSON.int 7), none⟩ := by
  have h := claim_C6 (JSON.int 7) (by decide)
  exact ⟨h.1 "p", by simpa using h.2.1 [] "", h.2.2 "k"⟩

/-- C7 counterexample: the sentinel is in-band: with the legitimate string
literal `"MISSING"` present on one side and the path absent on the other,
the important-path value comparison reports equality `true`. -/
theorem claim_C7_counterexample :
    findPath (analyze_json_structure (JSON.obj []) "") "object" = none
    ∧ findPath (analyze_json_structure
        (JSON.obj [("object", JSON.str "MISSING")]) "") "object"
        = some ⟨"str", some (JSON.str "MISSING"), none⟩
    ∧ valueCheckEq
        (analyze_json_structure (JSON.obj [("object", JSON.str "MISSING")]) "")
        (analyze_json_structure (JSON.obj []) "") "object" = true := by
  decide

/-- C7 (amended): the absent-side default of the important-path value
comparison is the ordinary string `"MISSING"`, which can collide with a
legitimate literal; equality is guaranteed false for a path present on
exactly one side only when the present side's literal differs from the
string `"MISSING"`. -/
theorem claim_C7 (s1 s2 : Struct) (field : String) (i : Info) (v : JSON)
    (h1 : findPath s1 field = some i) (h2 : i.value = some v)
    (h3 : findPath s2 field = none) (h4 : v ≠ JSON.str "MISSING") :
    valueCheckEq s1 s2 field = false := by
  simp [valueCheckEq, getValueOr, h1, h2, h3, h4]

/-- C7 witness: a present literal `"ok"` against an absent side compares
unequal. -/
theorem claim_C7_witness :
    valueCheckEq
      (analyze_json_structure (JSON.obj [("object", JSON.str "ok")]) "")
      (analyze_json_structure (JSON.obj []) "") "object" = false :=
  claim_C7 _ _ "object" ⟨"str", some (JSON.str "ok"), none⟩ (JSON.str "ok")
    (by decide) rfl (by decide) (by decide)

/-- C8: every sequence records, at its own path, kind `list` with a length
attribute equal to the element count (length 0 included); elements past
index 0 contribute no descriptors (fingerprints depend only on the head and
the length of the tail); and on the spec's heterogeneous example there is a
descriptor at `choices[0].index`, none at `choices[0].foo`, and `choices`
records kind `list`, length 2. -/
theorem claim_C8 :
    (∀ (l : List JSON) (path : String),
        findPath (analyze_json_structure (JSON.arr l) path) path
          = some ⟨"list", none, some l.length⟩)
    ∧ (∀ (x : JSON) (r r2 : List JSON) (path : String), r.length = r2.length →
        analyze_json_structure (JSON.arr (x :: r)) path
          = analyze_json_structure (JSON.arr (x :: r2)) path)
    ∧ findPath (analyze_json_structure exC8 "") "choices[0].index"
        = some ⟨"int", some (JSON.int 0), none⟩
    ∧ findPath (analyze_json_structure exC8 "") "choices[0].foo" = none
    ∧ findPath (analyze_json_structure exC8 "") "choices"
        = some ⟨"list", none, some 2⟩ := by
  refine ⟨fun l path => ?_, fun x r r2 path h => ?_, by decide, by decide, by decide⟩
  · rw [show analyze_json_structure (JSON.arr l) path
        = insertKey
            (match l with
             | [] => ([] : Struct)
             | x :: _ => analyze_json_structure x (path ++ "[0]"))
            path ⟨"list", none, some l.length⟩ from by
      cases l <;> simp [analyze_json_structure]]
    exact findPath_insertKey_self _ _ _
  · have e1 : analyze_json_structure (JSON.arr (x :: r)) path
        = insertKey (analyze_json_structure x (path ++ "[0]")) path
            ⟨"list", none, some (x :: r).length⟩ := by
      simp [analyze_json_structure]
    have e2 : analyze_json_structure (JSON.arr (x :: r2)) path
        = insertKey (analyze_json_structure x (path ++ "[0]")) path
            ⟨"list", none, some (x :: r2).length⟩ := by
      simp [analyze_json_structure]
    rw [e1, e2]
    simp [h]

/-- C8 witness: tail contents beyond index 0 do not change the
fingerprint, and an empty sequence records length 0. -/
theorem claim_C8_witness :
    analyze_json_structure (JSON.arr [JSON.null, JSON.null]) ""
      = analyze_json_structure (JSON.arr [JSON.null, JSON.int 5]) ""
    ∧ findPath (analyze_json_structure (JSON.arr []) "x") "x"
        = some ⟨"list", none, some 0⟩ :=
  ⟨claim_C8.2.1 JSON.null [JSON.null] [JSON.int 5] "" rfl, claim_C8.1 [] "x"⟩

theorem lookup_eq_none_iff (s : Struct) (k : String) :
    findPath s k = none ↔ k ∉ structKeys s := by
  induction s with
  | nil => simp [findPath, structKeys]
  | cons p t ih =>
      obtain ⟨a, i⟩ := p
      by_cases hak : k = a
      · subst hak
        simp [findPath, List.lookup, structKeys]
      · have hka : (k == a) = false := by
          simp [beq_eq_false_iff_ne, hak]
        simp only [findPath] at ih
        simp [findPath, List.lookup, hka, structKeys, hak, ih]

theorem allKeys_comm (s1 s2 : Struct) : allKeys s1 s2 = allKeys s2 s1 := by
  unfold allKeys
  rw [Finset.union_comm]

theorem mem_allKeys (s1 s2 : Struct) (a : String) :
    a ∈ allKeys s1 s2 ↔ a ∈ structKeys s1 ∨ a ∈ structKeys s2 := by
  unfold allKeys
  rw [Finset.mem_sort]
  simp

theorem allKeys_nodup (s1 s2 : Struct) : (allKeys s1 s2).Nodup :=
  Finset.sort_nodup _ _

theorem allKeys_sorted (s1 s2 : Struct) :
    (allKeys s1 s2).Pairwise (fun a b => a ≤ b) :=
  Finset.sort_sorted _ _

theorem countP_eq_key (l : List String) (p : String) (h : l.Nodup) :
    (l.countP (fun k => decide (k = p))) = if p ∈ l then 1 else 0 := by
  induction l with
  | nil => simp
  | cons a t ih =>
      rw [List.countP_cons]
      obtain ⟨ha, ht⟩ := List.nodup_cons.mp h
      by_cases hap : a = p
      · subst hap
        have hnt : (t.countP (fun k => decide (k = a))) = 0 :=
          List.countP_eq_zero.mpr (fun k hk => by
            simp only [decide_eq_true_eq]
            exact fun he => ha (he ▸ hk))
        simp [hnt]
      · have hpa : ¬(p = a) := fun he => hap he.symm
        simp [hap, ih ht, List.mem_cons, hpa]

theorem compareRows_swap (s1 s2 : Struct) :
    compareRows s2 s1
      = (compareRows s1 s2).map (fun r => ⟨r.path, r.cand, r.ref, r.matched⟩) := by
  unfold compareRows
  rw [allKeys_comm s2 s1, List.map_map]
  apply List.map_congr_left
  intro k hk
  simp only [Function.comp_apply, Row.mk.injEq, true_and]
  exact decide_eq_decide.mpr eq_comm

theorem matchedCount_comm (s1 s2 : Struct) :
    matchedCount s2 s1 = matchedCount s1 s2 := by
  unfold matchedCount
  rw [compareRows_swap s1 s2, List.countP_map]
  rfl

theorem totalCount_comm (s1 s2 : Struct) :
    totalCount s2 s1 = totalCount s1 s2 := by
  unfold totalCount compareRows
  rw [allKeys_comm s2 s1]
  simp

theorem compareRows_countP (s1 s2 : Struct) (p : String) :
    (compareRows s1 s2).countP (fun r => decide (r.path = p))
      = if p ∈ structKeys s1 ∨ p ∈ structKeys s2 then 1 else 0 := by
  unfold compareRows
  rw [List.countP_map]
  have he : ((fun r : Row => decide (r.path = p)) ∘
      (fun k => (⟨k, typeAt s1 k, typeAt s2 k,
        decide (typeAt s1 k = typeAt s2 k)⟩ : Row))) = fun k => decide (k = p) := rfl
  rw [he, countP_eq_key _ p (allKeys_nodup s1 s2)]
  by_cases hmem : p ∈ structKeys s1 ∨ p ∈ structKeys s2
  · simp [hmem, (mem_allKeys s1 s2 p).mpr hmem]
  · have : p ∉ allKeys s1 s2 := fun hc => hmem ((mem_allKeys s1 s2 p).mp hc)
    simp [hmem, this]

theorem compareRows_sorted (s1 s2 : Struct) :
    (compareRows s1 s2).Pairwise (fun r r2 => r.path ≤ r2.path) := by
  unfold compareRows
  rw [List.pairwise_map]
  exact allKeys_sorted s1 s2

theorem typeAt_missing (s : Struct) (p : String) (h : p ∉ structKeys s) :
    typeAt s p = "MISSING" := by
  unfold typeAt
  rw [(lookup_eq_none_iff s p).mpr h]

/-- C9: the structural diff is symmetric up to side-swapping — swapping the
two fingerprints swaps the reference/candidate kinds of every row and keeps
each row's match flag, the matched and total counts are identical in both
directions — and every path in the union of the two path sets appears in
exactly one row, the rows are in ascending lexicographic path order, and a
side lacking a path defaults to kind `MISSING`. -/
theorem claim_C9 (A B : JSON) :
    compareRows (analyze_json_structure B "") (analyze_json_structure A "")
        = (compareRows (analyze_json_structure A "")
            (analyze_json_structure B "")).map
            (fun r => ⟨r.path, r.cand, r.ref, r.matched⟩)
    ∧ matchedCount (analyze_json_structure B "") (analyze_json_structure A "")
        = matchedCount (analyze_json_structure A "") (analyze_json_structure B "")
    ∧ totalCount (analyze_json_structure B "") (analyze_json_structure A "")
        = totalCount (analyze_json_structure A "") (analyze_json_structure B "")
    ∧ (∀ p : String,
        (compareRows (analyze_json_structure A "")
            (analyze_json_structure B "")).countP
            (fun r => decide (r.path = p))
          = if p ∈ structKeys (analyze_json_structure A "")
              ∨ p ∈ structKeys (analyze_json_structure B "") then 1 else 0)
    ∧ (compareRows (analyze_json_structure A "")
        (analyze_json_structure B "")).Pairwise
        (fun r r2 => r.path ≤ r2.path)
    ∧ (∀ p : String, p ∉ structKeys (analyze_json_structure A "") →
        typeAt (analyze_json_structure A "") p = "MISSING") :=
  ⟨compareRows_swap _ _, matchedCount_comm _ _, totalCount_comm _ _,
   fun p => compareRows_countP _ _ p, compareRows_sorted _ _,
   fun p h => typeAt_missing _ p h⟩

/-- C9 witness: on `{"a": 1}` against `null`, the path `a` appears in
exactly one row, and the side lacking it reports kind `MISSING`. -/
theorem claim_C9_witness :
    (compareRows (analyze_json_structure (JSON.obj [("a", JSON.int 1)]) "")
        (analyze_json_structure JSON.null "")).countP
        (fun r => decide (r.path = "a")) = 1
    ∧ typeAt (analyze_json_structure JSON.null "") "a" = "MISSING" := by
  have h := claim_C9 (JSON.obj [("a", JSON.int 1)]) JSON.null
  have h2 := claim_C9 JSON.null (JSON.obj [("a", JSON.int 1)])
  constructor
  · rw [h.2.2.2.1 "a"]
    decide
  · exact h2.2.2.2.2.2 "a" (by decide)

end CompatVerify
